import Mathlib

/-!
Shallow embedding of the koth-project player-state sync service.

The definitions below are translated from:
* `src/services/dataValidator.js` (validation, delta limits, sequence check)
* `src/services/gameDataTransformer.js` (v2 document <-> relational parts)
* the v2 sync service (`handlePlayerConnect`, `handlePeriodicSync`,
  `handlePlayerDisconnect`, `handleCrashRecovery`, `validateServerToken`)
* `src/database/models/Player.js` and the `GameServer` model.

Modelling conventions:
* JavaScript numbers on these paths are integer-valued; they are embedded
  as `Int`.
* A JavaScript value that may be `undefined`/`null` is embedded as
  `Option _`; `x || 0` on a possibly-absent number is `jsNumOr0`, and
  `x || null` / `x || fallback` on strings uses `jsStrOr` (the empty
  string is falsy in JavaScript).
* The open-keyed tracking dictionaries are association lists
  `List (String × Int)`.
* Real time is passed explicitly as a `now : Int` millisecond clock;
  ISO timestamp strings are carried opaquely.
* Database rows live in plain structures; a transaction that rolls back
  returns the pre-state unchanged.
-/

/-- JavaScript `x || 0` for a possibly-undefined number (`0` is falsy, so
the result is the same integer either way). -/
def jsNumOr0 : Option Int → Int
  | none => 0
  | some v => v

/-- JavaScript `x || fallback` for a possibly-undefined/null string; the
empty string is falsy. -/
def jsStrOr (x fallback : Option String) : Option String :=
  match x with
  | none => fallback
  | some s => if s = "" then fallback else some s

/-- JavaScript truthiness of a possibly-undefined boolean (`undefined` is
falsy). -/
def jsBoolTruthy : Option Bool → Bool
  | none => false
  | some b => b

/-- Join a list of strings with a separator (JavaScript `Array.join`). -/
def joinWith (sep : String) : List String → String
  | [] => ""
  | [s] => s
  | s :: rest => s ++ sep ++ joinWith sep rest

/-! ## v2 document shape (§6.2 of the spec, as consumed by the code) -/

/-- The `stats` object of a v2 player document.  Each numeric field is
individually optional: `validateV2PlayerFormat` checks a field only when
it is not `undefined`, and `checkDeltaLimits` reads each with `|| 0`. -/
structure V2Stats where
  currency : Option Int := none
  currencyTotal : Option Int := none
  currencySpent : Option Int := none
  xp : Option Int := none
  xpTotal : Option Int := none
  prestige : Option Int := none
  permaTokens : Option Int := none
  dailyClaims : Option Int := none
  gamesPlayed : Option Int := none
  timePlayed : Option Int := none
  joinTime : Option String := none
  dailyClaimTime : Option String := none
deriving DecidableEq, Repr

/-- The `skins` object of a v2 player document. -/
structure V2Skins where
  indfor : Option String := none
  blufor : Option String := none
  redfor : Option String := none
deriving DecidableEq, Repr

/-- One entry of the `loadout` array. -/
structure V2LoadoutSlot where
  slot : Int
  family : Option String := none
  item : String
  count : Option Int := none
deriving DecidableEq, Repr

/-- The embedded `tracking` section of a v2 document: five open-keyed
counter maps. -/
structure V2Tracking where
  kills : Option (List (String × Int)) := none
  vehicleKills : Option (List (String × Int)) := none
  purchases : Option (List (String × Int)) := none
  weaponXp : Option (List (String × Int)) := none
  rewards : Option (List (String × Int)) := none
deriving DecidableEq, Repr

/-- A v2 player document as the handlers see it. -/
structure V2Doc where
  v : Int
  steamId : String
  eosId : Option String := none
  name : Option String := none
  serverId : Option String := none
  lastSync : Option String := none
  syncSeq : Int
  stats : Option V2Stats := none
  skins : Option V2Skins := none
  loadout : Option (List V2LoadoutSlot) := none
  perks : Option (List String) := none
  permaUnlocks : Option (List String) := none
  supporterStatus : Option (List String) := none
  tracking : Option V2Tracking := none
deriving DecidableEq, Repr

/-- The argument shape of `validateV2TrackingFormat`: a tracking object
plus the `v`/`steamId` header fields, each possibly absent (the
disconnect and crash-recovery handlers pass the bare tracking section,
where both header fields are `undefined`). -/
structure TrackingDocView where
  v : Option Int := none
  steamId : Option String := none
  kills : Option (List (String × Int)) := none
  vehicleKills : Option (List (String × Int)) := none
  purchases : Option (List (String × Int)) := none
  weaponXp : Option (List (String × Int)) := none
  rewards : Option (List (String × Int)) := none
deriving DecidableEq, Repr

/-! ## dataValidator.js -/

/-- Delta limits for anti-abuse detection (`DELTA_LIMITS`). -/
structure DeltaLimits where
  currency : Int
  currencySpent : Int
  xp : Int
  prestige : Int
  permaTokens : Int
  timePlayed : Int
deriving DecidableEq, Repr

/-- `DELTA_LIMITS` from dataValidator.js. -/
def DELTA_LIMITS : DeltaLimits :=
  { currency := 50000
    currencySpent := 50000
    xp := 100000
    prestige := 1
    permaTokens := 10
    timePlayed := 7200 }

/-- Result of `validateSteamId`. -/
structure SteamIdResult where
  valid : Bool
  steamId : Option String
  error : Option String
deriving DecidableEq, Repr

/-- `String.trim`, written by structural recursion on the character list
so that it evaluates inside the kernel. -/
def trimChars (s : String) : String :=
  String.mk (((s.toList.dropWhile Char.isWhitespace).reverse.dropWhile Char.isWhitespace).reverse)

/-- `validateSteamId(steamId)`: the input must be a present, non-empty
string that trims to exactly 17 decimal digits. -/
def validateSteamId : Option String → SteamIdResult
  | none =>
      { valid := false, steamId := none, error := some "Steam ID is required" }
  | some s =>
      if s = "" then
        { valid := false, steamId := none, error := some "Steam ID is required" }
      else
        let cleaned := trimChars s
        if cleaned.length = 17 ∧ cleaned.toList.all Char.isDigit then
          { valid := true, steamId := some cleaned, error := none }
        else
          { valid := false, steamId := none,
            error := some "Steam ID must be exactly 17 digits" }

/-- Result shape `{valid, errors}` of the format validators. -/
structure ValidationResult where
  valid : Bool
  errors : List String
deriving DecidableEq, Repr

/-- Error list of `validateV2PlayerFormat` for one optional stats field
(`must be a number` branches are unrepresentable for integer-typed
fields; only the negativity check can fire). -/
def statFieldErrors (name : String) (x : Option Int) : List String :=
  match x with
  | none => []
  | some v => if v < 0 then [s!"stats.{name} cannot be negative"] else []

/-- The error list computed by `validateV2PlayerFormat(data)`. -/
def v2PlayerFormatErrors (data : V2Doc) : List String :=
  (if data.v ≠ 2 then ["Invalid version: expected 2"] else [])
  ++ (match (validateSteamId (some data.steamId)).error with
      | some e => [e]
      | none => [])
  ++ (match data.stats with
      | none => []
      | some st =>
        statFieldErrors "currency" st.currency
        ++ statFieldErrors "currencyTotal" st.currencyTotal
        ++ statFieldErrors "currencySpent" st.currencySpent
        ++ statFieldErrors "xp" st.xp
        ++ statFieldErrors "xpTotal" st.xpTotal
        ++ statFieldErrors "prestige" st.prestige
        ++ statFieldErrors "permaTokens" st.permaTokens
        ++ statFieldErrors "dailyClaims" st.dailyClaims
        ++ statFieldErrors "gamesPlayed" st.gamesPlayed
        ++ statFieldErrors "timePlayed" st.timePlayed
        ++ (match st.prestige with
            | some p => if p < 0 ∨ p > 100 then ["stats.prestige must be between 0 and 100"] else []
            | none => []))

/-- `validateV2PlayerFormat(data)`; structural type errors (non-object
stats, non-array loadout, …) are unrepresentable in the typed document. -/
def validateV2PlayerFormat (data : V2Doc) : ValidationResult :=
  let errors := v2PlayerFormatErrors data
  { valid := errors.isEmpty, errors := errors }

/-- Error list for one tracking map: every value must be a non-negative
number. -/
def trackingMapErrors (name : String) : Option (List (String × Int)) → List String
  | none => []
  | some entries =>
      entries.foldl (fun acc kv =>
        acc ++ (if kv.2 < 0 then [s!"{name}.{kv.1} cannot be negative"] else [])) []

/-- `validateV2TrackingFormat(data)`: checks `v === 2`, the steam id, and
that all five maps hold non-negative numbers. -/
def validateV2TrackingFormat (data : TrackingDocView) : ValidationResult :=
  let errors :=
    (if data.v ≠ some 2 then ["Invalid version: expected 2"] else [])
    ++ (match (validateSteamId data.steamId).error with
        | some e => [e]
        | none => [])
    ++ trackingMapErrors "kills" data.kills
    ++ trackingMapErrors "vehicleKills" data.vehicleKills
    ++ trackingMapErrors "purchases" data.purchases
    ++ trackingMapErrors "weaponXp" data.weaponXp
    ++ trackingMapErrors "rewards" data.rewards
  { valid := errors.isEmpty, errors := errors }

/-- Return shape of `checkDeltaLimits`: `{ flagged, reasons }`.
Note: the object has no `valid` and no `violations` field. -/
structure DeltaCheckResult where
  flagged : Bool
  reasons : List String
deriving DecidableEq, Repr

/-- JavaScript property access `result.valid` on a `DeltaCheckResult`:
the field does not exist, so the access yields `undefined`. -/
def DeltaCheckResult.jsValid (_ : DeltaCheckResult) : Option Bool := none

/-- JavaScript property access `result.violations` on a
`DeltaCheckResult`: the field does not exist, so the access yields
`undefined`. -/
def DeltaCheckResult.jsViolations (_ : DeltaCheckResult) : Option (List String) := none

/-- `checkDeltaLimits(oldData, newData)`: compares the stats of the old
and new documents against `DELTA_LIMITS`, reading each field with
`|| 0`; when either side has no stats object it reports no flags. -/
def checkDeltaLimits (oldData newData : V2Doc) : DeltaCheckResult :=
  match oldData.stats, newData.stats with
  | some oldStats, some newStats =>
    let currencyGain := jsNumOr0 newStats.currency - jsNumOr0 oldStats.currency
    let currencySpentDelta := jsNumOr0 newStats.currencySpent - jsNumOr0 oldStats.currencySpent
    let xpGain := jsNumOr0 newStats.xp - jsNumOr0 oldStats.xp
    let prestigeGain := jsNumOr0 newStats.prestige - jsNumOr0 oldStats.prestige
    let permaTokensGain := jsNumOr0 newStats.permaTokens - jsNumOr0 oldStats.permaTokens
    let timePlayedDelta := jsNumOr0 newStats.timePlayed - jsNumOr0 oldStats.timePlayed
    let reasons :=
      (if currencyGain > DELTA_LIMITS.currency then
        [s!"Currency gain {currencyGain} exceeds limit {DELTA_LIMITS.currency}"] else [])
      ++ (if currencySpentDelta > DELTA_LIMITS.currencySpent then
        [s!"Currency spent {currencySpentDelta} exceeds limit {DELTA_LIMITS.currencySpent}"] else [])
      ++ (if xpGain > DELTA_LIMITS.xp then
        [s!"XP gain {xpGain} exceeds limit {DELTA_LIMITS.xp}"] else [])
      ++ (if prestigeGain > DELTA_LIMITS.prestige then
        [s!"Prestige gain {prestigeGain} exceeds limit {DELTA_LIMITS.prestige}"] else [])
      ++ (if permaTokensGain > DELTA_LIMITS.permaTokens then
        [s!"Perma tokens gain {permaTokensGain} exceeds limit {DELTA_LIMITS.permaTokens}"] else [])
      ++ (if timePlayedDelta > DELTA_LIMITS.timePlayed then
        [s!"Time played increase {timePlayedDelta}s exceeds limit {DELTA_LIMITS.timePlayed}s"] else [])
    { flagged := ¬ reasons.isEmpty, reasons := reasons }
  | _, _ => { flagged := false, reasons := [] }

/-- Result shape `{valid, reason}` of `validateSyncSequence`. -/
structure SeqValidation where
  valid : Bool
  reason : Option String
deriving DecidableEq, Repr

/-- `validateSyncSequence(dbSyncSeq, newSyncSeq, tolerance)`: the new
sequence must be at least the stored one and must not jump more than
`tolerance` ahead (the call sites pass 10, and 100 for crash recovery). -/
def validateSyncSequence (dbSyncSeq newSyncSeq tolerance : Int) : SeqValidation :=
  if newSyncSeq < dbSyncSeq then
    { valid := false
      reason := some (s!"Sync sequence {newSyncSeq} is less than DB sequence {dbSyncSeq} (stale data)") }
  else
    let jump := newSyncSeq - dbSyncSeq
    if jump > tolerance then
      { valid := false
        reason := some (s!"Sync sequence jump {jump} exceeds tolerance {tolerance}") }
    else
      { valid := true, reason := none }

/-! ## Relational model (Player row and associations) -/

/-- A `player_stats` row; every numeric column defaults to 0. -/
structure StatsRow where
  currency : Int := 0
  currency_total : Int := 0
  currency_spent : Int := 0
  xp : Int := 0
  xp_total : Int := 0
  prestige : Int := 0
  perma_tokens : Int := 0
  daily_claims : Int := 0
  games_played : Int := 0
  time_played : Int := 0
  join_time : Option String := none
  daily_claim_time : Option String := none
deriving DecidableEq, Repr

/-- A `player_skins` row. -/
structure SkinsRow where
  indfor : Option String := none
  blufor : Option String := none
  redfor : Option String := none
deriving DecidableEq, Repr

/-- A `loadout_slots` row (player id implicit). -/
structure LoadoutRow where
  slot : Int
  family : Option String := none
  item : String
  count : Int := 1
deriving DecidableEq, Repr

/-- A Player row together with all associations, as loaded by
`Player.findWithFullData`.  Tracking tables are association lists keyed
by their compound key component. -/
structure PlayerFull where
  steam_id : String
  eos_id : Option String := none
  name : Option String := none
  sync_seq : Int := 0
  active_server_id : Option String := none
  active_since : Option Int := none
  updated_at : Option String := none
  stats : Option StatsRow := none
  skins : Option SkinsRow := none
  supporterStatus : Option String := none
  loadout : List LoadoutRow := []
  perks : List String := []
  permaUnlocks : List String := []
  kills : List (String × Int) := []
  vehicleKills : List (String × Int) := []
  purchases : List (String × Int) := []
  weaponXp : List (String × Int) := []
  rewards : List (String × Int) := []
deriving DecidableEq, Repr

/-- `Player.wasRecentlyActive(windowMs)` (Player.js): both lock columns
must be set and less than `windowMs` must have elapsed since
`active_since`. -/
def wasRecentlyActive (p : PlayerFull) (windowMs now : Int) : Bool :=
  match p.active_server_id, p.active_since with
  | some _, some since => now - since < windowMs
  | _, _ => false

/-- `Player.setActiveServer(serverId)` (Player.js). -/
def setActiveServer (p : PlayerFull) (serverId : String) (now : Int) : PlayerFull :=
  { p with active_server_id := some serverId, active_since := some now }

/-- `Player.clearActiveServer()` (Player.js). -/
def clearActiveServer (p : PlayerFull) : PlayerFull :=
  { p with active_server_id := none, active_since := none }

/-- A `game_servers` row. -/
structure GameServerRow where
  server_id : String
  server_name : Option String := none
  api_token : String
  is_active : Bool := true
  flagged : Bool := false
  flagged_reason : Option String := none
deriving DecidableEq, Repr

/-- `GameServer.findByToken(token)` (User.js): the first row whose
`api_token` matches and whose `is_active` flag is set. -/
def findByToken (db : List GameServerRow) (token : String) : Option GameServerRow :=
  db.find? (fun r => r.api_token = token && r.is_active)

/-- `validateServerToken(token)` (sync service): a missing/empty token is
rejected up front (`if (!token) return null`); a flagged server is only
logged and still allowed. -/
def validateServerToken (db : List GameServerRow) (token : String) : Option GameServerRow :=
  if token = "" then none else findByToken db token

/-! ## gameDataTransformer.js -/

/-- `dbToV2Player(player)`: render the stored row as a v2 player document.
The produced object has no `tracking` key (`tracking := none`); stats and
skins fall back to all-default objects when the rows are missing.  The
`new Date()` fallback for `lastSync` is abstracted by carrying the row's
`updated_at` string through. -/
def dbToV2Player (p : PlayerFull) : V2Doc :=
  { v := 2
    steamId := p.steam_id
    eosId := jsStrOr p.eos_id none
    name := jsStrOr p.name none
    serverId := jsStrOr p.active_server_id none
    lastSync := p.updated_at
    syncSeq := p.sync_seq
    stats :=
      some (match p.stats with
      | some s =>
        { currency := some s.currency
          currencyTotal := some s.currency_total
          currencySpent := some s.currency_spent
          xp := some s.xp
          xpTotal := some s.xp_total
          prestige := some s.prestige
          permaTokens := some s.perma_tokens
          dailyClaims := some s.daily_claims
          gamesPlayed := some s.games_played
          timePlayed := some s.time_played
          joinTime := s.join_time
          dailyClaimTime := s.daily_claim_time }
      | none =>
        { currency := some 0, currencyTotal := some 0, currencySpent := some 0
          xp := some 0, xpTotal := some 0, prestige := some 0, permaTokens := some 0
          dailyClaims := some 0, gamesPlayed := some 0, timePlayed := some 0
          joinTime := none, dailyClaimTime := none })
    skins :=
      some (match p.skins with
      | some s => { indfor := jsStrOr s.indfor none, blufor := jsStrOr s.blufor none,
                    redfor := jsStrOr s.redfor none }
      | none => { indfor := none, blufor := none, redfor := none })
    loadout :=
      some (p.loadout.map (fun slot =>
        { slot := slot.slot, family := jsStrOr slot.family none, item := slot.item
          count := some (if slot.count = (0 : Int) then 1 else slot.count) }))
    perks := some p.perks
    permaUnlocks := some p.permaUnlocks
    supporterStatus :=
      some (match p.supporterStatus with
      | some st => [st]
      | none => [])
    tracking := none }

/-- The per-table parts extracted by `v2PlayerToDbParts`. -/
structure DbParts where
  player_eos_id : Option String
  player_name : Option String
  player_sync_seq : Int
  stats : Option StatsRow
  skins : Option SkinsRow
  supporterStatus : Option String
  loadout : List LoadoutRow
  perks : List String
  permaUnlocks : List String
deriving DecidableEq, Repr

/-- `v2PlayerToDbParts(v2Data)`: extract upsert payloads from a v2 player
document; absent sections yield `none`/empty parts. -/
def v2PlayerToDbParts (d : V2Doc) : DbParts :=
  { player_eos_id := jsStrOr d.eosId none
    player_name := jsStrOr d.name none
    player_sync_seq := d.syncSeq
    stats :=
      match d.stats with
      | none => none
      | some st =>
        some { currency := jsNumOr0 st.currency
               currency_total := jsNumOr0 st.currencyTotal
               currency_spent := jsNumOr0 st.currencySpent
               xp := jsNumOr0 st.xp
               xp_total := jsNumOr0 st.xpTotal
               prestige := jsNumOr0 st.prestige
               perma_tokens := jsNumOr0 st.permaTokens
               daily_claims := jsNumOr0 st.dailyClaims
               games_played := jsNumOr0 st.gamesPlayed
               time_played := jsNumOr0 st.timePlayed
               join_time := jsStrOr st.joinTime none
               daily_claim_time := jsStrOr st.dailyClaimTime none }
    skins :=
      match d.skins with
      | none => none
      | some sk =>
        some { indfor := jsStrOr sk.indfor none, blufor := jsStrOr sk.blufor none,
               redfor := jsStrOr sk.redfor none }
    supporterStatus :=
      match d.supporterStatus with
      | some (st :: _) => some st
      | _ => none
    loadout :=
      match d.loadout with
      | none => []
      | some slots =>
        slots.map (fun s =>
          { slot := s.slot, family := jsStrOr s.family none, item := s.item
            count := match s.count with
                     | none => 1
                     | some c => if c = (0 : Int) then 1 else c })
    perks := (d.perks).getD []
    permaUnlocks := (d.permaUnlocks).getD [] }

/-- The per-table parts extracted by `v2TrackingToDbParts`. -/
structure TrackingParts where
  rewards : List (String × Int)
  kills : List (String × Int)
  vehicleKills : List (String × Int)
  purchases : List (String × Int)
  weaponXp : List (String × Int)
deriving DecidableEq, Repr

/-- `v2TrackingToDbParts(trackingData)`: each map entry becomes an upsert
row with the count read through `|| 0`. -/
def v2TrackingToDbParts (t : V2Tracking) : TrackingParts :=
  { rewards := (t.rewards.getD []).map (fun kv => (kv.1, kv.2))
    kills := (t.kills.getD []).map (fun kv => (kv.1, kv.2))
    vehicleKills := (t.vehicleKills.getD []).map (fun kv => (kv.1, kv.2))
    purchases := (t.purchases.getD []).map (fun kv => (kv.1, kv.2))
    weaponXp := (t.weaponXp.getD []).map (fun kv => (kv.1, kv.2)) }

/-! ## Sync service handlers (v2 sync service) -/

/-- The `TypeError` thrown by `deltaCheck.violations.join(...)` when the
delta-check result (which has fields `flagged`/`reasons` only) is read
through the nonexistent `violations` field. -/
def deltaTypeErrorMsg : String := "TypeError: deltaCheck.violations is undefined"

/-- `ACTIVE_SERVER_TIMEOUT` (30 s in milliseconds). -/
def ACTIVE_SERVER_TIMEOUT : Int := 30000

/-- Result of `handlePlayerConnect`. -/
inductive ConnectResult
  | activeElsewhere (activeServer : String) (activeSince : Option Int) (waitMs : Int)
  | ok (player : V2Doc) (syncSeq : Int)
deriving DecidableEq, Repr

/-- Result of `handlePeriodicSync` / `handlePlayerDisconnect`.  The
`thrown` constructor models a JavaScript exception escaping the handler
(the transaction is rolled back and the caller sees a generic error). -/
inductive SyncResult
  | validationFailed (errors : List String)
  | trackingValidationFailed (errors : List String)
  | playerNotFound
  | notSessionOwner (activeServer : Option String)
  | invalidSyncSeq (reason : Option String) (expectedSeq : Int)
  | ok (syncSeq : Int) (flagged : Bool)
  | thrown (msg : String)
deriving DecidableEq, Repr

/-- Result of `handleCrashRecovery`. -/
inductive RecoveryResult
  | validationFailed (errors : List String)
  | trackingValidationFailed (errors : List String)
  | playerNotFound
  | skipped (reason : String)
  | ok (syncSeq : Int) (flagged : Bool)
  | thrown (msg : String)
deriving DecidableEq, Repr

/-- The object `{ v: 2, steamId, ...trackingData }` that `handlePeriodicSync`
passes to `validateV2TrackingFormat`. -/
def periodicTrackingView (steamId : String) (t : V2Tracking) : TrackingDocView :=
  { v := some 2, steamId := some steamId, kills := t.kills,
    vehicleKills := t.vehicleKills, purchases := t.purchases,
    weaponXp := t.weaponXp, rewards := t.rewards }

/-- The bare tracking section that `handlePlayerDisconnect` and
`handleCrashRecovery` pass to `validateV2TrackingFormat`: the `v` and
`steamId` header fields are absent (`undefined`). -/
def bareTrackingView (t : V2Tracking) : TrackingDocView :=
  { v := none, steamId := none, kills := t.kills,
    vehicleKills := t.vehicleKills, purchases := t.purchases,
    weaponXp := t.weaponXp, rewards := t.rewards }

/-- Upsert one `(key, value)` row into an association table keyed by the
first component. -/
def upsertAssoc (l : List (String × Int)) (key : String) (value : Int) : List (String × Int) :=
  if l.any (fun kv => kv.1 = key) then
    l.map (fun kv => if kv.1 = key then (key, value) else kv)
  else l ++ [(key, value)]

/-- Upsert a batch of rows in order. -/
def upsertAll (l entries : List (String × Int)) : List (String × Int) :=
  entries.foldl (fun acc kv => upsertAssoc acc kv.1 kv.2) l

/-- `PlayerPermanentUnlock.upsert` keyed by weapon name: an existing row
is kept (its unlock timestamp is not modified), a new name is appended. -/
def upsertUnlocks (l ws : List String) : List String :=
  ws.foldl (fun acc w => if acc.contains w then acc else acc ++ [w]) l

/-- The per-player writes shared by periodic sync, disconnect and crash
recovery: update the Player row (`eos_id`/`name` with `||` fallback,
`sync_seq := playerData.syncSeq`), upsert stats/skins/supporter when
present, replace loadout and perks wholesale, upsert permanent unlocks. -/
def applyPlayerWrites (player : PlayerFull) (doc : V2Doc) : PlayerFull :=
  let dbParts := v2PlayerToDbParts doc
  { player with
    eos_id := jsStrOr dbParts.player_eos_id player.eos_id
    name := jsStrOr dbParts.player_name player.name
    sync_seq := doc.syncSeq
    stats := match dbParts.stats with
             | some s => some s
             | none => player.stats
    skins := match dbParts.skins with
             | some s => some s
             | none => player.skins
    supporterStatus := match dbParts.supporterStatus with
                       | some s => some s
                       | none => player.supporterStatus
    loadout := dbParts.loadout
    perks := dbParts.perks
    permaUnlocks := upsertUnlocks player.permaUnlocks dbParts.permaUnlocks }

/-- The tracking-table upserts (rewards, kills, vehicle kills, purchases,
weapon xp), applied when the document carries a tracking section. -/
def applyTrackingWrites (player : PlayerFull) (t : V2Tracking) : PlayerFull :=
  let tp := v2TrackingToDbParts t
  { player with
    rewards := upsertAll player.rewards tp.rewards
    kills := upsertAll player.kills tp.kills
    vehicleKills := upsertAll player.vehicleKills tp.vehicleKills
    purchases := upsertAll player.purchases tp.purchases
    weaponXp := upsertAll player.weaponXp tp.weaponXp }

/-- All writes of one sync: player-data writes, then tracking writes if a
tracking section is present. -/
def applyAllWrites (player : PlayerFull) (doc : V2Doc) : PlayerFull :=
  let p1 := applyPlayerWrites player doc
  match doc.tracking with
  | some tr => applyTrackingWrites p1 tr
  | none => p1

/-- `handlePlayerConnect(steamId, server)`.  `pre` is the row
`Player.findWithFullData(steamId)` would return (`none` = first sight; a
created player starts at `sync_seq = 0` with a default stats row).
The stored `active_server_id` is a non-empty server id, so the JavaScript
truthiness test `player.active_server_id && ...` is modelled by presence. -/
def handlePlayerConnect (pre : Option PlayerFull) (steamId : String)
    (server : GameServerRow) (now : Int) : ConnectResult × Option PlayerFull :=
  let player : PlayerFull :=
    match pre with
    | some q => q
    | none => { steam_id := steamId, sync_seq := 0, stats := some {} }
  let claim : ConnectResult × Option PlayerFull :=
    let p1 := setActiveServer player server.server_id now
    (.ok (dbToV2Player p1) p1.sync_seq, some p1)
  match player.active_server_id with
  | some activeId =>
      if activeId ≠ server.server_id ∧ wasRecentlyActive player ACTIVE_SERVER_TIMEOUT now = true then
        (.activeElsewhere activeId player.active_since ACTIVE_SERVER_TIMEOUT, some player)
      else claim
  | none => claim

/-- The transactional part of `handlePeriodicSync` (after format
validation): re-read the player, check session ownership and the sync
sequence, run the delta check, then apply the writes.  The call site
reads `deltaCheck.valid` and `deltaCheck.violations`, which are not
fields of the `{flagged, reasons}` object `checkDeltaLimits` returns:
both accesses yield `undefined`, so `!deltaCheck.valid` is always true
and `deltaCheck.violations.join` throws a `TypeError`, rolling the
transaction back. -/
def periodicSyncTxn (pre : Option PlayerFull) (doc : V2Doc)
    (server : GameServerRow) : SyncResult × Option PlayerFull :=
  match pre with
  | none => (.playerNotFound, none)
  | some player =>
    if player.active_server_id ≠ some server.server_id then
      (.notSessionOwner player.active_server_id, some player)
    else
      let seqValidation := validateSyncSequence player.sync_seq doc.syncSeq 10
      if seqValidation.valid = false then
        (.invalidSyncSeq seqValidation.reason player.sync_seq, some player)
      else
        let deltaCheck := checkDeltaLimits (dbToV2Player player) doc
        if jsBoolTruthy deltaCheck.jsValid = false then
          match deltaCheck.jsViolations with
          | none => (.thrown deltaTypeErrorMsg, some player)
          | some vs =>
            -- flagged = true, flagReason = violations.join('; ') (audited)
            let _flagReason := joinWith "; " vs
            (.ok doc.syncSeq true, some (applyAllWrites player doc))
        else
          (.ok doc.syncSeq false, some (applyAllWrites player doc))

/-- `handlePeriodicSync(data, server)`: validate the player format, then
the embedded tracking section (with the `{v: 2, steamId, ...}` header
added), then run the transaction. -/
def handlePeriodicSync (pre : Option PlayerFull) (doc : V2Doc)
    (server : GameServerRow) : SyncResult × Option PlayerFull :=
  let validation := validateV2PlayerFormat doc
  if validation.valid = false then (.validationFailed validation.errors, pre)
  else
    match doc.tracking with
    | some tr =>
      let tv := validateV2TrackingFormat (periodicTrackingView doc.steamId tr)
      if tv.valid = false then (.trackingValidationFailed tv.errors, pre)
      else periodicSyncTxn pre doc server
    | none => periodicSyncTxn pre doc server

/-- The transactional part of `handlePlayerDisconnect`: identical to the
periodic-sync transaction, with the active-server lock cleared after the
writes inside the same transaction.  The same `deltaCheck.valid` /
`deltaCheck.violations` accesses yield `undefined` here too. -/
def disconnectTxn (pre : Option PlayerFull) (doc : V2Doc)
    (server : GameServerRow) : SyncResult × Option PlayerFull :=
  match pre with
  | none => (.playerNotFound, none)
  | some player =>
    if player.active_server_id ≠ some server.server_id then
      (.notSessionOwner player.active_server_id, some player)
    else
      let seqValidation := validateSyncSequence player.sync_seq doc.syncSeq 10
      if seqValidation.valid = false then
        (.invalidSyncSeq seqValidation.reason player.sync_seq, some player)
      else
        let deltaCheck := checkDeltaLimits (dbToV2Player player) doc
        if jsBoolTruthy deltaCheck.jsValid = false then
          match deltaCheck.jsViolations with
          | none => (.thrown deltaTypeErrorMsg, some player)
          | some vs =>
            let _flagReason := joinWith "; " vs
            (.ok doc.syncSeq true, some (clearActiveServer (applyAllWrites player doc)))
        else
          (.ok doc.syncSeq false, some (clearActiveServer (applyAllWrites player doc)))

/-- `handlePlayerDisconnect(data, server)`.  Note: the embedded tracking
section is passed to `validateV2TrackingFormat` bare, without the
`v`/`steamId` header. -/
def handlePlayerDisconnect (pre : Option PlayerFull) (doc : V2Doc)
    (server : GameServerRow) : SyncResult × Option PlayerFull :=
  let validation := validateV2PlayerFormat doc
  if validation.valid = false then (.validationFailed validation.errors, pre)
  else
    match doc.tracking with
    | some tr =>
      let tv := validateV2TrackingFormat (bareTrackingView tr)
      if tv.valid = false then (.trackingValidationFailed tv.errors, pre)
      else disconnectTxn pre doc server
    | none => disconnectTxn pre doc server

/-- `handleCrashRecovery(data, server)`: looser sequence tolerance (100)
that flags instead of rejecting; a stale document (`doc.syncSeq` below
the stored value) is skipped with no writes; otherwise the active-server
lock is cleared (outside the transaction) and the usual writes run.
The delta check suffers the same `valid`/`violations` field mismatch as
the other handlers, and it runs before the stale-data check. -/
def handleCrashRecovery (pre : Option PlayerFull) (doc : V2Doc)
    (_server : GameServerRow) : RecoveryResult × Option PlayerFull :=
  let validation := validateV2PlayerFormat doc
  if validation.valid = false then (.validationFailed validation.errors, pre)
  else
    let core : RecoveryResult × Option PlayerFull :=
      match pre with
      | none => (.playerNotFound, none)
      | some player =>
        let seqValidation := validateSyncSequence player.sync_seq doc.syncSeq 100
        let seqFlagged : Bool := !seqValidation.valid
        let deltaCheck := checkDeltaLimits (dbToV2Player player) doc
        let staleOrWrite : Bool → RecoveryResult × Option PlayerFull := fun flagged =>
          if doc.syncSeq < player.sync_seq then
            (.skipped "stale_data", some player)
          else
            let cleared := clearActiveServer player
            (.ok doc.syncSeq flagged, some (applyAllWrites cleared doc))
        if jsBoolTruthy deltaCheck.jsValid = false then
          match deltaCheck.jsViolations with
          | none => (.thrown deltaTypeErrorMsg, some player)
          | some _ => staleOrWrite true
        else staleOrWrite seqFlagged
    match doc.tracking with
    | some tr =>
      let tv := validateV2TrackingFormat (bareTrackingView tr)
      if tv.valid = false then (.trackingValidationFailed tv.errors, pre)
      else core
    | none => core

/-! ## Operation sequences (per steamId) -/

/-- One committed operation on a player's row. -/
inductive SyncOp
  | connect (steamId : String) (server : GameServerRow) (now : Int)
  | periodic (doc : V2Doc) (server : GameServerRow)
  | disconnect (doc : V2Doc) (server : GameServerRow)
  | recovery (doc : V2Doc) (server : GameServerRow)

/-- The stored row after one operation. -/
def applyOp (pre : Option PlayerFull) : SyncOp → Option PlayerFull
  | .connect steamId server now => (handlePlayerConnect pre steamId server now).2
  | .periodic doc server => (handlePeriodicSync pre doc server).2
  | .disconnect doc server => (handlePlayerDisconnect pre doc server).2
  | .recovery doc server => (handleCrashRecovery pre doc server).2

/-- The stored row after a sequence of operations. -/
def applyOps (ops : List SyncOp) (pre : Option PlayerFull) : Option PlayerFull :=
  ops.foldl applyOp pre

/-! ## Frame lemmas for the handlers -/

/-- Every branch of the periodic-sync transaction returns the stored row
unchanged: rejections roll back, and the write path is cut off by the
thrown delta-check `TypeError`. -/
theorem periodicSyncTxn_state (pre : Option PlayerFull) (doc : V2Doc)
    (server : GameServerRow) : (periodicSyncTxn pre doc server).2 = pre := by
  cases pre with
  | none => rfl
  | some player =>
    simp only [periodicSyncTxn, DeltaCheckResult.jsValid, DeltaCheckResult.jsViolations,
      jsBoolTruthy]
    split <;> try rfl
    split <;> rfl


/-- `handlePeriodicSync` never changes the stored row. -/
theorem handlePeriodicSync_state (pre : Option PlayerFull) (doc : V2Doc)
    (server : GameServerRow) : (handlePeriodicSync pre doc server).2 = pre := by
  unfold handlePeriodicSync
  dsimp only
  repeat' split
  all_goals first | rfl | exact periodicSyncTxn_state ..

/-- Every branch of the disconnect transaction returns the stored row
unchanged (the write-and-clear path is cut off by the thrown delta-check
`TypeError`). -/
theorem disconnectTxn_state (pre : Option PlayerFull) (doc : V2Doc)
    (server : GameServerRow) : (disconnectTxn pre doc server).2 = pre := by
  cases pre with
  | none => rfl
  | some player =>
    simp only [disconnectTxn, DeltaCheckResult.jsValid, DeltaCheckResult.jsViolations,
      jsBoolTruthy]
    split <;> try rfl
    split <;> rfl

/-- `handlePlayerDisconnect` never changes the stored row. -/
theorem handlePlayerDisconnect_state (pre : Option PlayerFull) (doc : V2Doc)
    (server : GameServerRow) : (handlePlayerDisconnect pre doc server).2 = pre := by
  unfold handlePlayerDisconnect
  dsimp only
  repeat' split
  all_goals first | rfl | exact disconnectTxn_state ..

/-- `handleCrashRecovery` never changes the stored row: rejections and
the stale skip keep it, and the write path is cut off by the thrown
delta-check `TypeError`. -/
theorem handleCrashRecovery_state (pre : Option PlayerFull) (doc : V2Doc)
    (server : GameServerRow) : (handleCrashRecovery pre doc server).2 = pre := by
  unfold handleCrashRecovery
  simp only [DeltaCheckResult.jsValid, DeltaCheckResult.jsViolations, jsBoolTruthy]
  repeat' split
  all_goals try rfl
  all_goals simp_all

/-- `handlePlayerConnect` keeps an existing row's sync sequence: the row
is either untouched (contention) or only the lock columns change. -/
theorem handlePlayerConnect_seq (pre : Option PlayerFull) (steamId : String)
    (server : GameServerRow) (now : Int) (q : PlayerFull) (h : pre = some q) :
    ∃ q', (handlePlayerConnect pre steamId server now).2 = some q' ∧
      q'.sync_seq = q.sync_seq := by
  subst h
  unfold handlePlayerConnect
  dsimp only
  repeat' split
  all_goals exact ⟨_, rfl, rfl⟩

/-- One committed operation never decreases an existing row's sync
sequence (and never deletes the row). -/
theorem applyOp_seq_mono (op : SyncOp) (pre : Option PlayerFull) (q : PlayerFull)
    (h : pre = some q) :
    ∃ q', applyOp pre op = some q' ∧ q.sync_seq ≤ q'.sync_seq := by
  cases op with
  | connect steamId server now =>
      obtain ⟨q', hq', hseq⟩ := handlePlayerConnect_seq pre steamId server now q h
      exact ⟨q', hq', le_of_eq hseq.symm⟩
  | periodic doc server =>
      refine ⟨q, ?_, le_refl _⟩
      show (handlePeriodicSync pre doc server).2 = some q
      rw [handlePeriodicSync_state]; exact h
  | disconnect doc server =>
      refine ⟨q, ?_, le_refl _⟩
      show (handlePlayerDisconnect pre doc server).2 = some q
      rw [handlePlayerDisconnect_state]; exact h
  | recovery doc server =>
      refine ⟨q, ?_, le_refl _⟩
      show (handleCrashRecovery pre doc server).2 = some q
      rw [handleCrashRecovery_state]; exact h

/-! ## Small characterization lemmas -/

/-- The sequence check fails exactly when the incoming value is below the
stored one or jumps more than the tolerance ahead. -/
theorem validateSyncSequence_false_iff (dbSeq newSeq tol : Int) :
    (validateSyncSequence dbSeq newSeq tol).valid = false ↔
      (newSeq < dbSeq ∨ tol < newSeq - dbSeq) := by
  unfold validateSyncSequence
  by_cases h1 : newSeq < dbSeq
  · rw [if_pos h1]
    exact iff_of_true rfl (Or.inl h1)
  · rw [if_neg h1]
    dsimp only
    by_cases h2 : newSeq - dbSeq > tol
    · rw [if_pos h2]
      exact iff_of_true rfl (Or.inr h2)
    · rw [if_neg h2]
      constructor
      · intro hc; exact absurd hc (by simp)
      · intro hc; exfalso
        rcases hc with hc | hc
        · exact h1 hc
        · exact h2 hc

/-- A valid steam id produces no error message. -/
theorem validateSteamId_error_of_valid (x : Option String)
    (h : (validateSteamId x).valid = true) : (validateSteamId x).error = none := by
  cases x with
  | none => simp [validateSteamId] at h
  | some s =>
    simp only [validateSteamId] at h ⊢
    by_cases h1 : s = ""
    · rw [if_pos h1] at h; simp at h
    · rw [if_neg h1] at h ⊢
      by_cases h2 : (trimChars s).length = 17 ∧ (trimChars s).toList.all Char.isDigit = true
      · rw [if_pos h2]
      · rw [if_neg h2] at h; simp at h

/-- `isOk` recognizes the success result of a sync/disconnect. -/
def SyncResult.isOk : SyncResult → Bool
  | .ok _ _ => true
  | _ => false

/-- The tracking-section validation as `handlePeriodicSync` performs it
(vacuously true when the document has no tracking section). -/
def periodicTrackingOk (doc : V2Doc) : Bool :=
  match doc.tracking with
  | none => true
  | some tr => (validateV2TrackingFormat (periodicTrackingView doc.steamId tr)).valid

/-- When the document passes both format validations, the periodic-sync
handler is exactly its transactional part. -/
theorem periodicSync_reduces (pre : Option PlayerFull) (doc : V2Doc) (server : GameServerRow)
    (hvalid : (validateV2PlayerFormat doc).valid = true)
    (htr : periodicTrackingOk doc = true) :
    handlePeriodicSync pre doc server = periodicSyncTxn pre doc server := by
  unfold handlePeriodicSync
  cases htr2 : doc.tracking with
  | none => simp [hvalid]
  | some tr =>
    have htv : (validateV2TrackingFormat (periodicTrackingView doc.steamId tr)).valid = true := by
      have h := htr; unfold periodicTrackingOk at h; rw [htr2] at h; exact h
    simp [hvalid, htv]

/-- A failing sequence check makes the periodic-sync transaction reject
with `invalid_sync_seq` carrying the stored sequence, rolling back. -/
theorem periodicSyncTxn_invalidSeq (doc : V2Doc) (server : GameServerRow) (q : PlayerFull)
    (hown : q.active_server_id = some server.server_id)
    (hseq : (validateSyncSequence q.sync_seq doc.syncSeq 10).valid = false) :
    periodicSyncTxn (some q) doc server =
      (.invalidSyncSeq (validateSyncSequence q.sync_seq doc.syncSeq 10).reason q.sync_seq,
        some q) := by
  unfold periodicSyncTxn
  dsimp only
  rw [if_neg (by rw [hown]; simp), if_pos hseq]

/-- A passing sequence check lets the periodic-sync transaction reach the
delta check, where the field-mismatch `TypeError` is thrown. -/
theorem periodicSyncTxn_thrown (doc : V2Doc) (server : GameServerRow) (q : PlayerFull)
    (hown : q.active_server_id = some server.server_id)
    (hseq : (validateSyncSequence q.sync_seq doc.syncSeq 10).valid = true) :
    periodicSyncTxn (some q) doc server = (.thrown deltaTypeErrorMsg, some q) := by
  unfold periodicSyncTxn
  dsimp only
  rw [if_neg (by rw [hown]; simp), if_neg (by rw [hseq]; simp)]
  rfl

/-- On a shape-valid document for a session-owned player whose sequence
check passes, `handlePeriodicSync` reaches the delta check and throws the
field-mismatch `TypeError`, rolling back. -/
theorem periodicSync_throws (doc : V2Doc) (server : GameServerRow) (q : PlayerFull)
    (hvalid : (validateV2PlayerFormat doc).valid = true)
    (htr : periodicTrackingOk doc = true)
    (hown : q.active_server_id = some server.server_id)
    (hseq : (validateSyncSequence q.sync_seq doc.syncSeq 10).valid = true) :
    handlePeriodicSync (some q) doc server = (.thrown deltaTypeErrorMsg, some q) :=
  (periodicSync_reduces (some q) doc server hvalid htr).trans
    (periodicSyncTxn_thrown doc server q hown hseq)

/-- The stored stats row of an optional player row. -/
def storedStats : Option PlayerFull → Option StatsRow
  | none => none
  | some q => q.stats

/-- `handlePeriodicSync` never returns a success result (every run that
survives the rejections throws at the delta check). -/
theorem handlePeriodicSync_not_ok (pre : Option PlayerFull) (doc : V2Doc)
    (server : GameServerRow) : ((handlePeriodicSync pre doc server).1).isOk = false := by
  unfold handlePeriodicSync periodicSyncTxn
  dsimp only
  simp only [DeltaCheckResult.jsValid, DeltaCheckResult.jsViolations, jsBoolTruthy]
  repeat' split
  all_goals first | rfl | simp_all

/-- The shape of every document produced by `dbToV2Player`: no tracking
section, and all player-data sections present. -/
theorem dbToV2Player_shape (p : PlayerFull) :
    (dbToV2Player p).tracking = none ∧ (dbToV2Player p).stats.isSome = true ∧
    (dbToV2Player p).skins.isSome = true ∧ (dbToV2Player p).loadout.isSome = true ∧
    (dbToV2Player p).perks.isSome = true ∧ (dbToV2Player p).permaUnlocks.isSome = true ∧
    (dbToV2Player p).supporterStatus.isSome = true :=
  ⟨rfl, rfl, rfl, rfl, rfl, rfl, rfl⟩

/-! ## Concrete fixtures -/

/-- A registered, active game server. -/
def serverA : GameServerRow := { server_id := "serverA", api_token := "tokenA" }

/-- A second game server, for contention scenarios. -/
def serverB : GameServerRow := { server_id := "serverB", api_token := "tokenB" }

/-- A player owned by `serverA` with stored `sync_seq = 0` and a default
stats row. -/
def ownedPlayer : PlayerFull :=
  { steam_id := "76561198000000001", sync_seq := 0,
    active_server_id := some "serverA", active_since := some 0, stats := some {} }

/-- The same player with stored `sync_seq = 10`. -/
def playerSeq10 : PlayerFull := { ownedPlayer with sync_seq := 10 }

/-- A shape-valid sync document with `syncSeq = 1` and a small currency
value (no delta violation). -/
def docSeq1 : V2Doc :=
  { v := 2, steamId := "76561198000000001", syncSeq := 1,
    stats := some { currency := some 100 } }

/-- A shape-valid sync document whose currency gain (60000) violates the
50000 delta limit. -/
def docBigCurrency : V2Doc :=
  { v := 2, steamId := "76561198000000001", syncSeq := 1,
    stats := some { currency := some 60000 } }

/-- A shape-valid recovery document with `syncSeq = 7` (stale against a
stored value of 10). -/
def docSeq7 : V2Doc := { docSeq1 with syncSeq := 7 }

/-- A shape-valid document with no stats section at all. -/
def docNoStats : V2Doc := { v := 2, steamId := "76561198000000001", syncSeq := 1 }

/-! ## Claim theorems -/

/-- C1: the spec says a delta-limit violation must flag the sync and
still commit (`{syncSeq, flagged: true}` with a recorded flagReason),
and a clean sync must commit with `flagged = false`.  The code disagrees
with itself: `checkDeltaLimits` reports the 60000 currency gain as a
violation (`flagged = true`), but the handler reads the nonexistent
`valid`/`violations` fields of that result, so both the violating sync
and the clean sync throw a `TypeError` and roll back instead of
committing. -/
theorem c1_deltaViolation_throws_instead_of_flagging :
    (checkDeltaLimits (dbToV2Player ownedPlayer) docBigCurrency).flagged = true ∧
    handlePeriodicSync (some ownedPlayer) docBigCurrency serverA =
      (.thrown deltaTypeErrorMsg, some ownedPlayer) ∧
    (checkDeltaLimits (dbToV2Player ownedPlayer) docSeq1).flagged = false ∧
    handlePeriodicSync (some ownedPlayer) docSeq1 serverA =
      (.thrown deltaTypeErrorMsg, some ownedPlayer) := by decide

/-- C2: for every steamId row and every sequence of committed operations
(Connect, PeriodicSync, Disconnect, CrashRecovery), the stored
`sync_seq` never decreases; the row is never deleted along the way. -/
theorem c2_syncSeq_nonDecreasing (ops : List SyncOp) (pre : Option PlayerFull)
    (q : PlayerFull) (h : pre = some q) :
    ∃ q', applyOps ops pre = some q' ∧ q.sync_seq ≤ q'.sync_seq := by
  induction ops generalizing pre q with
  | nil => exact ⟨q, h, le_refl _⟩
  | cons op rest ih =>
    obtain ⟨q1, h1, hle1⟩ := applyOp_seq_mono op pre q h
    obtain ⟨q2, h2, hle2⟩ := ih (applyOp pre op) q1 h1
    exact ⟨q2, h2, le_trans hle1 hle2⟩

/-- Witness for C2 at a concrete run: a connect, a periodic sync and a
crash recovery applied to a stored row. -/
theorem c2_witness :
    ((some ownedPlayer : Option PlayerFull) = some ownedPlayer) ∧
    ∃ q', applyOps [SyncOp.connect "76561198000000001" serverB 60000,
                    SyncOp.periodic docSeq1 serverA,
                    SyncOp.recovery docSeq7 serverA] (some ownedPlayer) = some q' ∧
      ownedPlayer.sync_seq ≤ q'.sync_seq :=
  ⟨rfl, c2_syncSeq_nonDecreasing _ _ _ rfl⟩

/-- C3: on a shape-valid PeriodicSync for an existing, session-owned
player with incoming sequence D and stored sequence S, the operation
returns `invalid_sync_seq` carrying `expectedSeq = S` exactly when
`D < S` or `D − S > 10`, and on such a rejection the stored row is
unchanged. -/
theorem c3_invalidSyncSeq_iff (pre : Option PlayerFull) (doc : V2Doc)
    (server : GameServerRow) (q : PlayerFull)
    (hpre : pre = some q)
    (hvalid : (validateV2PlayerFormat doc).valid = true)
    (htr : periodicTrackingOk doc = true)
    (hown : q.active_server_id = some server.server_id) :
    ((∃ r, (handlePeriodicSync pre doc server).1 = .invalidSyncSeq r q.sync_seq) ↔
      (doc.syncSeq < q.sync_seq ∨ 10 < doc.syncSeq - q.sync_seq)) ∧
    ((doc.syncSeq < q.sync_seq ∨ 10 < doc.syncSeq - q.sync_seq) →
      (handlePeriodicSync pre doc server).2 = pre) := by
  subst hpre
  rw [periodicSync_reduces (some q) doc server hvalid htr]
  refine ⟨?_, fun _ => periodicSyncTxn_state ..⟩
  by_cases hseq : (validateSyncSequence q.sync_seq doc.syncSeq 10).valid = false
  · rw [periodicSyncTxn_invalidSeq doc server q hown hseq]
    constructor
    · intro _; exact (validateSyncSequence_false_iff ..).mp hseq
    · intro _; exact ⟨_, rfl⟩
  · have hseqT : (validateSyncSequence q.sync_seq doc.syncSeq 10).valid = true := by
      cases hb : (validateSyncSequence q.sync_seq doc.syncSeq 10).valid
      · exact absurd hb hseq
      · rfl
    rw [periodicSyncTxn_thrown doc server q hown hseqT]
    constructor
    · rintro ⟨r, hr⟩; cases hr
    · intro hc
      exact absurd ((validateSyncSequence_false_iff ..).mpr hc) (by rw [hseqT]; simp)

/-- Witness for C3 at a concrete rejection: stored sequence 10, incoming
sequence 7. -/
theorem c3_witness :
    ((some playerSeq10 : Option PlayerFull) = some playerSeq10) ∧
    (validateV2PlayerFormat docSeq7).valid = true ∧
    periodicTrackingOk docSeq7 = true ∧
    playerSeq10.active_server_id = some serverA.server_id ∧
    (((∃ r, (handlePeriodicSync (some playerSeq10) docSeq7 serverA).1 =
        .invalidSyncSeq r playerSeq10.sync_seq) ↔
      (docSeq7.syncSeq < playerSeq10.sync_seq ∨
        10 < docSeq7.syncSeq - playerSeq10.sync_seq)) ∧
     ((docSeq7.syncSeq < playerSeq10.sync_seq ∨
        10 < docSeq7.syncSeq - playerSeq10.sync_seq) →
      (handlePeriodicSync (some playerSeq10) docSeq7 serverA).2 = some playerSeq10)) :=
  ⟨rfl, by decide, by decide, by decide,
    c3_invalidSyncSeq_iff (some playerSeq10) docSeq7 serverA playerSeq10 rfl
      (by decide) (by decide) (by decide)⟩

/-- C4 counterexample: applying a fresh, shape-valid PeriodicSync
document (syncSeq 1 against stored 0) does not succeed — it throws at
the delta check — so the claimed "first application succeeds, second
fails with InvalidSyncSeq" is false at this input; the second
application throws identically. -/
theorem c4_counterexample :
    handlePeriodicSync (some ownedPlayer) docSeq1 serverA =
      (.thrown deltaTypeErrorMsg, some ownedPlayer) ∧
    (∀ f : Bool, (handlePeriodicSync (some ownedPlayer) docSeq1 serverA).1 ≠
      .ok docSeq1.syncSeq f) ∧
    (handlePeriodicSync ((handlePeriodicSync (some ownedPlayer) docSeq1 serverA).2)
        docSeq1 serverA).1 = .thrown deltaTypeErrorMsg := by decide

/-- C4 (amended): applying the same shape-valid PeriodicSync document
twice to a session-owned player whose sequence check passes yields no
state change at all — each application throws the delta-check
`TypeError` and rolls back, and neither attempt returns
`invalid_sync_seq`. -/
theorem c4_periodicSync_twice_no_change (pre : Option PlayerFull) (doc : V2Doc)
    (server : GameServerRow) (q : PlayerFull)
    (hpre : pre = some q)
    (hvalid : (validateV2PlayerFormat doc).valid = true)
    (htr : periodicTrackingOk doc = true)
    (hown : q.active_server_id = some server.server_id)
    (hseq : (validateSyncSequence q.sync_seq doc.syncSeq 10).valid = true) :
    handlePeriodicSync pre doc server = (.thrown deltaTypeErrorMsg, pre) ∧
    handlePeriodicSync ((handlePeriodicSync pre doc server).2) doc server =
      (.thrown deltaTypeErrorMsg, pre) := by
  subst hpre
  have h1 := periodicSync_throws doc server q hvalid htr hown hseq
  exact ⟨h1, by rw [h1]; exact h1⟩

/-- Witness for C4 (amended) at the concrete fresh-document input. -/
theorem c4_witness :
    ((some ownedPlayer : Option PlayerFull) = some ownedPlayer) ∧
    (validateV2PlayerFormat docSeq1).valid = true ∧
    periodicTrackingOk docSeq1 = true ∧
    ownedPlayer.active_server_id = some serverA.server_id ∧
    (validateSyncSequence ownedPlayer.sync_seq docSeq1.syncSeq 10).valid = true ∧
    (handlePeriodicSync (some ownedPlayer) docSeq1 serverA =
        (.thrown deltaTypeErrorMsg, some ownedPlayer) ∧
      handlePeriodicSync ((handlePeriodicSync (some ownedPlayer) docSeq1 serverA).2)
          docSeq1 serverA = (.thrown deltaTypeErrorMsg, some ownedPlayer)) :=
  ⟨rfl, by decide, by decide, by decide, by decide,
    c4_periodicSync_twice_no_change (some ownedPlayer) docSeq1 serverA ownedPlayer rfl
      (by decide) (by decide) (by decide) (by decide)⟩

/-- C5: the spec says a CrashRecovery whose `doc.syncSeq` is below the
stored value returns `skipped: true` with reason `stale_data` and writes
nothing.  In the code the delta check runs before the stale-data check
and throws the field-mismatch `TypeError`, so the stale recovery
(stored 10, incoming 7) never returns the skip result; no writes happen
only because the handler throws first. -/
theorem c5_staleRecovery_throws_before_skip :
    docSeq7.syncSeq < playerSeq10.sync_seq ∧
    handleCrashRecovery (some playerSeq10) docSeq7 serverA =
      (.thrown deltaTypeErrorMsg, some playerSeq10) ∧
    (handleCrashRecovery (some playerSeq10) docSeq7 serverA).1 ≠
      .skipped "stale_data" := by decide

/-- C6: a Connect while another server holds a fresh session lock
(set less than 30 s ago) returns `player_active_elsewhere` carrying the
owning server and `waitMs = 30000`, and changes nothing: the stored row
(including `active_server_id`, `active_since` and `sync_seq`) keeps its
prior value. -/
theorem c6_connect_contention_no_change (pre : Option PlayerFull) (steamId : String)
    (server : GameServerRow) (now : Int) (q : PlayerFull) (a : String) (t : Int)
    (hpre : pre = some q)
    (hactive : q.active_server_id = some a)
    (hneq : a ≠ server.server_id)
    (hsince : q.active_since = some t)
    (hrecent : now - t < ACTIVE_SERVER_TIMEOUT) :
    handlePlayerConnect pre steamId server now =
      (.activeElsewhere a (some t) ACTIVE_SERVER_TIMEOUT, pre) := by
  subst hpre
  have hw : wasRecentlyActive q ACTIVE_SERVER_TIMEOUT now = true := by
    unfold wasRecentlyActive
    rw [hactive, hsince]
    exact decide_eq_true hrecent
  unfold handlePlayerConnect
  dsimp only
  rw [hactive]
  dsimp only
  rw [if_pos ⟨hneq, hw⟩, hsince]

/-- Witness for C6: `serverB` tries to connect a player locked by
`serverA` 10 seconds ago. -/
theorem c6_witness :
    ((some ownedPlayer : Option PlayerFull) = some ownedPlayer) ∧
    ownedPlayer.active_server_id = some "serverA" ∧
    "serverA" ≠ serverB.server_id ∧
    ownedPlayer.active_since = some 0 ∧
    (10000 - 0 : Int) < ACTIVE_SERVER_TIMEOUT ∧
    handlePlayerConnect (some ownedPlayer) "76561198000000001" serverB 10000 =
      (.activeElsewhere "serverA" (some 0) ACTIVE_SERVER_TIMEOUT, some ownedPlayer) :=
  ⟨rfl, rfl, by decide, rfl, by decide,
    c6_connect_contention_no_change (some ownedPlayer) "76561198000000001" serverB 10000
      ownedPlayer "serverA" 0 rfl rfl (by decide) rfl (by decide)⟩

/-- C7: the spec requires a successful Disconnect to have cleared
`active_server_id`/`active_since` inside the same transaction as the
data writes.  In the code no Disconnect ever returns success: every run
that survives validation, ownership and the sequence check throws the
delta-check `TypeError` and rolls back, leaving the row (lock included)
unchanged. -/
theorem c7_disconnect_never_succeeds (pre : Option PlayerFull) (doc : V2Doc)
    (server : GameServerRow) :
    ((handlePlayerDisconnect pre doc server).1).isOk = false ∧
    (handlePlayerDisconnect pre doc server).2 = pre := by
  refine ⟨?_, handlePlayerDisconnect_state ..⟩
  unfold handlePlayerDisconnect disconnectTxn
  dsimp only
  simp only [DeltaCheckResult.jsValid, DeltaCheckResult.jsViolations, jsBoolTruthy]
  repeat' split
  all_goals first | rfl | simp_all

/-- C8: every successful Connect returns the player document produced by
`dbToV2Player`, which carries no tracking section and does carry the
stats, skins, loadout, perks, permaUnlocks and supporterStatus
sections. -/
theorem c8_connect_returns_no_tracking (pre : Option PlayerFull) (steamId : String)
    (server : GameServerRow) (now : Int) (d : V2Doc) (s : Int)
    (h : (handlePlayerConnect pre steamId server now).1 = .ok d s) :
    d.tracking = none ∧ d.stats.isSome = true ∧ d.skins.isSome = true ∧
    d.loadout.isSome = true ∧ d.perks.isSome = true ∧
    d.permaUnlocks.isSome = true ∧ d.supporterStatus.isSome = true := by
  revert h
  unfold handlePlayerConnect
  dsimp only
  repeat' split
  all_goals intro h
  all_goals cases h
  all_goals exact dbToV2Player_shape _

/-- The document returned by the concrete fresh connect of the C8
witness. -/
def freshConnectDoc : V2Doc :=
  dbToV2Player (setActiveServer
    { steam_id := "76561198000000001", sync_seq := 0, stats := some {} }
    serverA.server_id 5)

/-- Witness for C8: a fresh player connecting to `serverA`. -/
theorem c8_witness :
    (handlePlayerConnect none "76561198000000001" serverA 5).1 =
      .ok freshConnectDoc 0 ∧
    (freshConnectDoc.tracking = none ∧ freshConnectDoc.stats.isSome = true ∧
     freshConnectDoc.skins.isSome = true ∧ freshConnectDoc.loadout.isSome = true ∧
     freshConnectDoc.perks.isSome = true ∧ freshConnectDoc.permaUnlocks.isSome = true ∧
     freshConnectDoc.supporterStatus.isSome = true) :=
  ⟨by decide,
    c8_connect_returns_no_tracking none "76561198000000001" serverA 5
      freshConnectDoc 0 (by decide)⟩

/-- C9: token resolution returns a server record exactly when the token
is present and a `game_servers` row with that token exists and is
active; the record handed back always carries that token and the active
flag, with no condition on `flagged` (a flagged-but-active server is
still returned); a missing, unknown or inactive-server token yields
none. -/
theorem c9_resolveToken_spec (db : List GameServerRow) (token : String) :
    ((validateServerToken db token).isSome = true ↔
      (token ≠ "" ∧ ∃ r, r ∈ db ∧ r.api_token = token ∧ r.is_active = true)) ∧
    (∀ r, validateServerToken db token = some r →
      r.is_active = true ∧ r.api_token = token ∧ r ∈ db) := by
  unfold validateServerToken findByToken
  by_cases htok : token = ""
  · rw [if_pos htok]
    constructor
    · simp [htok]
    · intro r hr; cases hr
  · rw [if_neg htok]
    constructor
    · constructor
      · intro hs
        obtain ⟨r, hr, hp⟩ := List.find?_isSome.mp hs
        simp only [Bool.and_eq_true, decide_eq_true_eq] at hp
        exact ⟨htok, r, hr, hp.1, hp.2⟩
      · rintro ⟨-, r, hr, h1, h2⟩
        exact List.find?_isSome.mpr ⟨r, hr, by simp [h1, h2]⟩
    · intro r hr
      have hp := List.find?_some hr
      have hm := List.mem_of_find?_eq_some hr
      simp only [Bool.and_eq_true, decide_eq_true_eq] at hp
      exact ⟨hp.2, hp.1, hm⟩

/-- A flagged but active server row, for the C9 witness. -/
def flaggedServerRow : GameServerRow :=
  { server_id := "s2", api_token := "t2", is_active := true, flagged := true }

/-- Witness for C9: a flagged-but-active server is still resolved. -/
theorem c9_witness :
    (validateServerToken [flaggedServerRow] "t2").isSome = true :=
  (c9_resolveToken_spec [flaggedServerRow] "t2").1.mpr
    ⟨by decide, flaggedServerRow, by simp, rfl, rfl⟩

/-- C10: a v2 document that omits the stats object entirely passes shape
validation (stats and its numeric fields are only checked when present),
the delta check reports no violation against any stored data, and a
periodic sync of such a document never yields a flagged success and
leaves the stored stats row unmodified. -/
theorem c10_statsOmitted_bypass (doc : V2Doc)
    (hstats : doc.stats = none) (hv : doc.v = 2)
    (hsid : (validateSteamId (some doc.steamId)).valid = true) :
    (validateV2PlayerFormat doc).valid = true ∧
    (∀ old, checkDeltaLimits old doc = { flagged := false, reasons := [] }) ∧
    (∀ pre server, storedStats ((handlePeriodicSync pre doc server).2) = storedStats pre ∧
      ∀ s : Int, (handlePeriodicSync pre doc server).1 ≠ .ok s true) := by
  refine ⟨?_, ?_, ?_⟩
  · unfold validateV2PlayerFormat v2PlayerFormatErrors
    rw [hstats, hv, validateSteamId_error_of_valid _ hsid]
    simp
  · intro old
    unfold checkDeltaLimits
    rw [hstats]
    cases old.stats <;> rfl
  · intro pre server
    constructor
    · rw [handlePeriodicSync_state]
    · intro s hc
      have h := handlePeriodicSync_not_ok pre doc server
      rw [hc] at h
      simp [SyncResult.isOk] at h

/-- Witness for C10 at the concrete stats-free document. -/
theorem c10_witness :
    docNoStats.stats = none ∧ docNoStats.v = 2 ∧
    (validateSteamId (some docNoStats.steamId)).valid = true ∧
    ((validateV2PlayerFormat docNoStats).valid = true ∧
     (∀ old, checkDeltaLimits old docNoStats = { flagged := false, reasons := [] }) ∧
     (∀ pre server,
        storedStats ((handlePeriodicSync pre docNoStats server).2) = storedStats pre ∧
        ∀ s : Int, (handlePeriodicSync pre docNoStats server).1 ≠ .ok s true)) :=
  ⟨rfl, rfl, by decide, c10_statsOmitted_bypass docNoStats rfl rfl (by decide)⟩
